import Mathlib

/-!
Verification of the bg-remover-api Flask server (src/server.py) against its
natural-language specification.  The server's request handlers are embedded
shallowly: uploaded bytes are lists of naturals, the external rembg `remove`
capability is an explicit function parameter (bytes to PNG bytes, or an
exception message), and each handler returns an `Outcome` recording the HTTP
response together with the observable per-request effects (which bytes, if
any, were handed to inference, and how many temporary files were created and
deleted).
-/

/-- Minimal JSON value model, enough for the server's `jsonify` bodies.
An object is a cons-list of key-value pairs (`objNil` / `objCons`), which
keeps derived decidable equality available. -/
inductive Json where
  | str : String → Json
  | boolean : Bool → Json
  | objNil : Json
  | objCons : String → Json → Json → Json
deriving DecidableEq, Repr

/-- Builds a JSON object from a list of key-value pairs. -/
def Json.obj : List (String × Json) → Json
  | [] => Json.objNil
  | (k, v) :: rest => Json.objCons k v (Json.obj rest)

/-- An HTTP response body: either raw image bytes (served via `send_file`)
or a JSON document (served via `jsonify`). -/
inductive Body where
  | bytes : List Nat → Body
  | json : Json → Body
deriving DecidableEq, Repr

/-- An HTTP response as the handlers produce it. -/
structure Response where
  status : Nat
  contentType : String
  body : Body
deriving DecidableEq, Repr

/-- The outcome of handling one request: the response plus the observable
request-scoped effects.  `inferenceInput` is `some b` exactly when the rembg
`remove` capability was invoked, with `b` the bytes handed to it.
`tempCreated` / `tempDeleted` count the temporary files created and deleted
while handling the request. -/
structure Outcome where
  response : Response
  inferenceInput : Option (List Nat)
  tempCreated : Nat
  tempDeleted : Nat
deriving DecidableEq, Repr

/-- The external rembg `remove` capability: PNG output bytes on success, or
the exception message `str(e)` on failure (rembg signals failure by raising). -/
def RemoveFn : Type := List Nat → Except String (List Nat)

/-- A JSON error response, as built by `jsonify({"error": msg}), status`. -/
def errorResponse (status : Nat) (msg : String) : Response :=
  { status := status, contentType := "application/json",
    body := Body.json (Json.obj [("error", Json.str msg)]) }

/-- One file of a multipart form: `werkzeug.FileStorage` reduced to its
declared filename and its content bytes. -/
structure StoredFile where
  filename : String
  content : List Nat
deriving DecidableEq, Repr

/-- A request to the multipart endpoint: the form's file fields and the
declared body size in bytes. -/
structure FormRequest where
  files : List (String × StoredFile)
  contentLength : Nat
deriving DecidableEq, Repr

/-- Looks up a file field by name, as `request.files['image']` guarded by
`'image' in request.files`. -/
def FormRequest.getFile (r : FormRequest) (k : String) : Option StoredFile :=
  (r.files.find? (fun p => p.1 == k)).map Prod.snd

/-- Configured maximum request body size: `app.config['MAX_CONTENT_LENGTH']
= 16 * 1024 * 1024` (src/server.py line 17). -/
def MAX_CONTENT_LENGTH : Nat := 16 * 1024 * 1024

/-- The extension allow-list of src/server.py line 42 (a Python set; listed
here in source order). -/
def allowed_extensions : List String := ["png", "jpg", "jpeg", "webp", "bmp", "tiff"]

/-- Extension extraction of src/server.py line 43:
`file.filename.lower().split('.')[-1] if '.' in file.filename else ''`.
The last element of `split('.')` is the suffix of the string after its last
dot, and lowercasing commutes with splitting on a dot, so the computation
is rendered over the filename's character list (which the kernel can
evaluate, unlike the built-in String functions). -/
def file_ext (filename : String) : String :=
  if filename.data.contains '.' then
    String.mk (((filename.data.map Char.toLower).reverse.takeWhile (fun c => c != '.')).reverse)
  else ""

/-- Error message of the unsupported-type branch (src/server.py line 46).
The extension list is joined from a Python set, so its order is not
guaranteed across processes; no claim depends on the exact text. -/
def unsupported_message : String :=
  "Unsupported file type. Allowed: png, jpg, jpeg, webp, bmp, tiff"

/-- The `/remove-bg` view function (src/server.py lines 24-79).  Validation
short-circuits in source order: missing `image` field, empty filename,
extension allow-list.  A validated upload is read and handed to `rm` (the
rembg `remove` capability); an exception from it is caught by the
`except Exception` block and mapped to a 500 response whose message embeds
`str(e)`.  On success the output bytes are written to a
`NamedTemporaryFile(delete=False)` (one temp file created); the nested
`remove_temp_file` function defined at lines 64-68 is never invoked on any
path, so no temp file is ever deleted; `send_file` then serves the temp
file's content (the output bytes) with mimetype `image/png` and status 200. -/
def remove_background (rm : RemoveFn) (req : FormRequest) : Outcome :=
  match req.getFile "image" with
  | none => ⟨errorResponse 400 "No image file provided", none, 0, 0⟩
  | some file =>
    if file.filename = "" then
      ⟨errorResponse 400 "No file selected", none, 0, 0⟩
    else if file_ext file.filename ∈ allowed_extensions then
      match rm file.content with
      | Except.ok output =>
        ⟨{ status := 200, contentType := "image/png", body := Body.bytes output },
          some file.content, 1, 0⟩
      | Except.error e =>
        ⟨errorResponse 500 ("Failed to process image: " ++ e), some file.content, 0, 0⟩
    else
      ⟨errorResponse 400 unsupported_message, none, 0, 0⟩

/-- The 413 error handler (src/server.py lines 119-121).  Registered on the
app, but werkzeug enforces `MAX_CONTENT_LENGTH` lazily — the
`RequestEntityTooLarge` it raises when a view first reads the body surfaces
inside the views' `try` blocks, where `except Exception` catches it — so
this handler's body is never produced on the two POST endpoints. -/
def too_large : Response := errorResponse 413 "File too large. Maximum size is 16MB"

/-- Exception text `str(e)` of the `werkzeug RequestEntityTooLarge` raised
when a request body larger than `MAX_CONTENT_LENGTH` is first read. -/
def entity_too_large_text : String :=
  "413 Request Entity Too Large: The data value transmitted exceeds the capacity limit."

/-- Dispatch for `POST /remove-bg`: werkzeug enforces `MAX_CONTENT_LENGTH`
lazily, raising `RequestEntityTooLarge` when the body is first read — here
at `request.files` (src/server.py line 33), inside the view's `try` block —
so the generic `except Exception` (lines 77-79) catches it and returns 500
with the exception text; the registered 413 handler never fires. -/
def dispatch_remove_bg (rm : RemoveFn) (req : FormRequest) : Outcome :=
  if req.contentLength > MAX_CONTENT_LENGTH then
    ⟨errorResponse 500 ("Failed to process image: " ++ entity_too_large_text), none, 0, 0⟩
  else remove_background rm req

/-- The `/health` view function (src/server.py lines 19-22): a constant
response, independent of any request data or model-session state. -/
def health_check : Response :=
  { status := 200, contentType := "application/json",
    body := Json.obj [("status", Json.str "ok"),
      ("message", Json.str "Background removal service is running")] |> Body.json }

/-- Result of `request.get_json()` on the `/remove-bg-base64` endpoint:
either a parsed JSON object (key-value pairs), or a raised
`werkzeug BadRequest` carrying the message `str(e)`.  Non-object JSON
bodies are outside the modelled fragment (the handler's
`'image' in data` only behaves dict-like on objects). -/
inductive JsonParse where
  | parsed : List (String × Json) → JsonParse
  | failed : String → JsonParse
deriving DecidableEq, Repr

/-- A request to the base64 endpoint: the parse outcome of its JSON body
and the declared body size in bytes. -/
structure JsonRequest where
  body : JsonParse
  contentLength : Nat
deriving DecidableEq, Repr

/-- The `/remove-bg-base64` view function (src/server.py lines 81-117).
`request.get_json()` raising (unparseable body) propagates to the outer
`except Exception` block, which returns 500 with the exception text.  A
falsy parsed value (the empty object) or a missing `image` key returns 400.
`base64.b64decode` is passed as `b64dec` (failure is its raised exception);
any decode failure, including a non-string `image` value (a `TypeError`
inside the same `try`), returns 400.  A `remove` exception returns 500 via
the outer handler; on success the output is re-encoded with `b64enc` and
wrapped in the success JSON.  No temporary file is used on this endpoint. -/
def remove_background_base64 (rm : RemoveFn)
    (b64dec : String → Except String (List Nat)) (b64enc : List Nat → String)
    (req : JsonRequest) : Outcome :=
  match req.body with
  | JsonParse.failed e =>
    ⟨errorResponse 500 ("Failed to process image: " ++ e), none, 0, 0⟩
  | JsonParse.parsed kvs =>
    match (kvs.find? (fun p => p.1 == "image")).map Prod.snd with
    | none => ⟨errorResponse 400 "No base64 image data provided", none, 0, 0⟩
    | some v =>
      match v with
      | Json.str s =>
        match b64dec s with
        | Except.error _ =>
          ⟨errorResponse 400 "Invalid base64 image data", none, 0, 0⟩
        | Except.ok imageData =>
          match rm imageData with
          | Except.error e =>
            ⟨errorResponse 500 ("Failed to process image: " ++ e), some imageData, 0, 0⟩
          | Except.ok output =>
            ⟨{ status := 200, contentType := "application/json",
               body := Json.obj [("success", Json.boolean true),
                 ("image", Json.str (b64enc output)),
                 ("format", Json.str "png")] |> Body.json },
              some imageData, 0, 0⟩
      | _ => ⟨errorResponse 400 "Invalid base64 image data", none, 0, 0⟩

/-- Dispatch for `POST /remove-bg-base64`: on this endpoint the oversized
body is detected (when werkzeug checks it at all) by `request.get_json()`
(src/server.py line 89) raising `RequestEntityTooLarge` inside the view's
`try` block; the outer `except Exception` (lines 115-117) returns 500 with
the exception text, and the registered 413 handler never fires. -/
def dispatch_remove_bg_base64 (rm : RemoveFn)
    (b64dec : String → Except String (List Nat)) (b64enc : List Nat → String)
    (req : JsonRequest) : Outcome :=
  if req.contentLength > MAX_CONTENT_LENGTH then
    ⟨errorResponse 500 ("Failed to process image: " ++ entity_too_large_text), none, 0, 0⟩
  else remove_background_base64 rm b64dec b64enc req

/-- Pixel dimensions of a decoded image. -/
structure Dims where
  width : Nat
  height : Nat
deriving DecidableEq, Repr

/-- Modelled from the spec: the Size Normalizer of spec section 4.3, which
src/server.py does not contain.  If `max(width, height) <= maxDim` the
dimensions are returned unchanged; otherwise both dimensions are scaled by
`maxDim / max(width, height)`, rounded to the nearest integer and clamped
to at least 1. -/
def normalizeSpec (maxDim : Nat) (d : Dims) : Dims :=
  if max d.width d.height ≤ maxDim then d
  else
    let longer := max d.width d.height
    { width := max 1 ((2 * d.width * maxDim + longer) / (2 * longer)),
      height := max 1 ((2 * d.height * maxDim + longer) / (2 * longer)) }

/-- A concrete remove capability that always raises, with the message PIL
emits for undecodable bytes. -/
def rmAlwaysFail : RemoveFn := fun _ => Except.error "cannot identify image file"

/-- A concrete remove capability that always succeeds, prepending the PNG
signature's first byte as a marker. -/
def rmAlwaysOk : RemoveFn := fun b => Except.ok (137 :: b)

/-- A concrete remove capability that always raises with message `boom`. -/
def rmBoom : RemoveFn := fun _ => Except.error "boom"

/-- A multipart request carrying corrupt bytes under an allowed extension. -/
def corruptUpload : FormRequest :=
  { files := [("image", { filename := "photo.png", content := [1, 2, 3] })],
    contentLength := 3 }

/-- A multipart request whose file has an allowed extension but zero bytes. -/
def emptyUpload : FormRequest :=
  { files := [("image", { filename := "photo.png", content := [] })],
    contentLength := 0 }

/-- A well-formed multipart request. -/
def validUpload : FormRequest :=
  { files := [("image", { filename := "photo.png", content := [10, 20] })],
    contentLength := 2 }

/-- A multipart request whose filename has no dot. -/
def nodotUpload : FormRequest :=
  { files := [("image", { filename := "photopng", content := [1, 2] })],
    contentLength := 2 }

/-- A multipart request whose declared body size exceeds the maximum. -/
def oversizedUpload : FormRequest :=
  { files := [("image", { filename := "big.png", content := [1] })],
    contentLength := 16 * 1024 * 1024 + 1 }

/-- A concrete base64 decoder stub: accepts one fixed input, raises on the
rest (as `base64.b64decode` does on bad padding). -/
def b64decStub : String → Except String (List Nat) := fun s =>
  if s = "AAECAw==" then Except.ok [0, 1, 2, 3]
  else Except.error "Invalid base64-encoded string"

/-- A concrete base64 encoder stub. -/
def b64encStub : List Nat → String := fun _ => "iVBORw=="

/-- A base64-endpoint request whose body failed JSON parsing
(`request.get_json()` raised). -/
def badJsonRequest : JsonRequest :=
  { body := JsonParse.failed "400 Bad Request: Failed to decode JSON object",
    contentLength := 10 }

/-- A base64-endpoint request whose parsed object lacks the `image` key. -/
def noImageKeyRequest : JsonRequest :=
  { body := JsonParse.parsed [("data", Json.str "xyz")], contentLength := 10 }

/-- A base64-endpoint request whose `image` value fails base64 decoding. -/
def badB64Request : JsonRequest :=
  { body := JsonParse.parsed [("image", Json.str "not-base64")], contentLength := 10 }

/-- A base64-endpoint request that decodes successfully under `b64decStub`. -/
def goodB64Request : JsonRequest :=
  { body := JsonParse.parsed [("image", Json.str "AAECAw==")], contentLength := 10 }

/-- A base64-endpoint request whose declared body size exceeds the maximum. -/
def oversizedJsonRequest : JsonRequest :=
  { body := JsonParse.parsed [("image", Json.str "AAECAw==")],
    contentLength := 16 * 1024 * 1024 + 1 }

/-- C1 counterexample: a request with corrupt bytes under an allowed
extension yields HTTP 500, not the claimed 400 — the handler's generic
`except Exception` block catches the decode failure raised inside rembg. -/
theorem c1_refuted :
    (dispatch_remove_bg rmAlwaysFail corruptUpload).response.status = 500 ∧
    (dispatch_remove_bg rmAlwaysFail corruptUpload).response.status ≠ 400 := by
  decide

/-- C1 (amended): for every request with an allowed extension, a non-empty
filename and non-empty content, within the size limit, whose bytes make
rembg raise, the handler returns HTTP 500 with an error body embedding the
exception text; a response is always produced (the server does not crash). -/
theorem c1_corrupt_image_returns_500 (rm : RemoveFn) (req : FormRequest)
    (f : StoredFile) (e : String)
    (hsize : req.contentLength ≤ MAX_CONTENT_LENGTH)
    (hfile : req.getFile "image" = some f)
    (hname : f.filename ≠ "")
    (hext : file_ext f.filename ∈ allowed_extensions)
    (_hne : f.content ≠ [])
    (hrm : rm f.content = Except.error e) :
    dispatch_remove_bg rm req =
      ⟨errorResponse 500 ("Failed to process image: " ++ e), some f.content, 0, 0⟩ := by
  unfold dispatch_remove_bg remove_background
  rw [if_neg (not_lt.mpr hsize), hfile]
  simp [hname, hext, hrm]

/-- C1 witness: the amended theorem applied at a concrete corrupt upload. -/
theorem c1_corrupt_image_returns_500_witness :
    dispatch_remove_bg rmAlwaysFail corruptUpload =
      ⟨errorResponse 500 ("Failed to process image: " ++ "cannot identify image file"),
        some [1, 2, 3], 0, 0⟩ :=
  c1_corrupt_image_returns_500 rmAlwaysFail corruptUpload
    { filename := "photo.png", content := [1, 2, 3] } "cannot identify image file"
    (by decide) (by decide) (by decide) (by decide) (by decide) rfl

/-- C2 counterexample: a zero-byte upload with a non-empty filename and an
allowed extension is not rejected with 400 — the handler reads the empty
bytes, invokes rembg on them, and the resulting exception yields 500. -/
theorem c2_refuted :
    (remove_background rmAlwaysFail emptyUpload).response.status = 500 ∧
    (remove_background rmAlwaysFail emptyUpload).response.status ≠ 400 ∧
    (remove_background rmAlwaysFail emptyUpload).inferenceInput = some [] := by
  decide

/-- C2 (amended): the handler does not detect zero-byte content; an upload
with a non-empty filename and allowed extension but empty bytes is passed to
inference, and the exception rembg raises on it is mapped to HTTP 500 (only
an empty filename is rejected with 400 before inference). -/
theorem c2_zero_byte_reaches_inference (rm : RemoveFn) (req : FormRequest)
    (f : StoredFile) (e : String)
    (hfile : req.getFile "image" = some f)
    (hname : f.filename ≠ "")
    (hext : file_ext f.filename ∈ allowed_extensions)
    (hempty : f.content = [])
    (hrm : rm [] = Except.error e) :
    (remove_background rm req).inferenceInput = some [] ∧
    (remove_background rm req).response.status = 500 := by
  unfold remove_background
  rw [hfile]
  simp [hname, hext, hempty, hrm, errorResponse]

/-- C2 witness: the amended theorem applied at a concrete zero-byte upload. -/
theorem c2_zero_byte_reaches_inference_witness :
    (remove_background rmAlwaysFail emptyUpload).inferenceInput = some [] ∧
    (remove_background rmAlwaysFail emptyUpload).response.status = 500 :=
  c2_zero_byte_reaches_inference rmAlwaysFail emptyUpload
    { filename := "photo.png", content := [] } "cannot identify image file"
    (by decide) (by decide) (by decide) (by decide) rfl

/-- C3: on a successful request the handler creates one temporary file
(`NamedTemporaryFile(delete=False)`) and deletes none — the nested
`remove_temp_file` cleanup function defined at src/server.py lines 64-68 is
never called on any path, so the temporary file outlives the response. -/
theorem c3_temp_file_leak :
    (remove_background rmAlwaysOk validUpload).response.status = 200 ∧
    (remove_background rmAlwaysOk validUpload).tempCreated = 1 ∧
    (remove_background rmAlwaysOk validUpload).tempDeleted = 0 := by
  decide

/-- C4 counterexample: when rembg raises with message `boom`, the 500
response's error message is `Failed to process image: boom`, whose character
sequence ends with the underlying exception text — internal detail is
leaked, contrary to the claimed generic message. -/
theorem c4_refuted :
    (remove_background rmBoom validUpload).response.status = 500 ∧
    (remove_background rmBoom validUpload).response.body =
      Body.json (Json.obj [("error", Json.str "Failed to process image: boom")]) ∧
    List.isSuffixOf "boom".data "Failed to process image: boom".data = true := by
  decide

/-- C4 (amended): a failure raised by rembg is mapped, on both endpoints, to
HTTP 500 with the error message `Failed to process image: ` followed by the
exception text `str(e)` — the underlying exception detail is included in the
response body, not hidden behind a generic message. -/
theorem c4_inference_failure_message (rm : RemoveFn) (req : FormRequest)
    (b64dec : String → Except String (List Nat)) (b64enc : List Nat → String)
    (jreq : JsonRequest) (f : StoredFile) (kvs : List (String × Json))
    (s : String) (imageData : List Nat) (e1 e2 : String)
    (hfile : req.getFile "image" = some f)
    (hname : f.filename ≠ "")
    (hext : file_ext f.filename ∈ allowed_extensions)
    (hrm1 : rm f.content = Except.error e1)
    (hj : jreq.body = JsonParse.parsed kvs)
    (hk : kvs.find? (fun p => p.1 == "image") = some ("image", Json.str s))
    (hdec : b64dec s = Except.ok imageData)
    (hrm2 : rm imageData = Except.error e2) :
    remove_background rm req =
      ⟨errorResponse 500 ("Failed to process image: " ++ e1), some f.content, 0, 0⟩ ∧
    remove_background_base64 rm b64dec b64enc jreq =
      ⟨errorResponse 500 ("Failed to process image: " ++ e2), some imageData, 0, 0⟩ := by
  constructor
  · unfold remove_background
    rw [hfile]
    simp [hname, hext, hrm1]
  · unfold remove_background_base64
    rw [hj]
    simp [hk, hdec, hrm2]

/-- C4 witness: the amended theorem applied at concrete failing requests. -/
theorem c4_inference_failure_message_witness :
    remove_background rmBoom validUpload =
      ⟨errorResponse 500 ("Failed to process image: " ++ "boom"), some [10, 20], 0, 0⟩ ∧
    remove_background_base64 rmBoom b64decStub b64encStub goodB64Request =
      ⟨errorResponse 500 ("Failed to process image: " ++ "boom"), some [0, 1, 2, 3], 0, 0⟩ :=
  c4_inference_failure_message rmBoom validUpload b64decStub b64encStub
    goodB64Request { filename := "photo.png", content := [10, 20] }
    [("image", Json.str "AAECAw==")] "AAECAw==" [0, 1, 2, 3] "boom" "boom"
    (by decide) (by decide) (by decide) rfl rfl (by decide) rfl rfl

/-- C5 counterexample: a request whose body exceeds the configured maximum
is answered with HTTP 500 on both endpoints, not the claimed 413 — the
`RequestEntityTooLarge` raised when the view first reads the body is caught
by the generic `except Exception` block, so the registered 413 handler's
body is never produced. -/
theorem c5_refuted :
    (dispatch_remove_bg rmAlwaysOk oversizedUpload).response.status = 500 ∧
    (dispatch_remove_bg rmAlwaysOk oversizedUpload).response.status ≠ 413 ∧
    (dispatch_remove_bg rmAlwaysOk oversizedUpload).response ≠ too_large ∧
    (dispatch_remove_bg_base64 rmAlwaysOk b64decStub b64encStub
      oversizedJsonRequest).response.status = 500 ∧
    (dispatch_remove_bg_base64 rmAlwaysOk b64decStub b64encStub
      oversizedJsonRequest).response.status ≠ 413 := by
  decide

/-- C5 (amended): a request whose body exceeds `MAX_CONTENT_LENGTH` is
answered on either endpoint with HTTP 500 carrying the
`RequestEntityTooLarge` exception text inside the generic failure message —
never the 413 `too_large` handler body — and no inference is invoked and no
temporary file created before that answer. -/
theorem c5_oversized_gives_500 (rm : RemoveFn) (req : FormRequest)
    (b64dec : String → Except String (List Nat)) (b64enc : List Nat → String)
    (jreq : JsonRequest)
    (h1 : req.contentLength > MAX_CONTENT_LENGTH)
    (h2 : jreq.contentLength > MAX_CONTENT_LENGTH) :
    dispatch_remove_bg rm req =
      ⟨errorResponse 500 ("Failed to process image: " ++ entity_too_large_text),
        none, 0, 0⟩ ∧
    dispatch_remove_bg_base64 rm b64dec b64enc jreq =
      ⟨errorResponse 500 ("Failed to process image: " ++ entity_too_large_text),
        none, 0, 0⟩ ∧
    errorResponse 500 ("Failed to process image: " ++ entity_too_large_text) ≠
      too_large := by
  refine ⟨?_, ?_, by decide⟩
  · unfold dispatch_remove_bg
    rw [if_pos h1]
  · unfold dispatch_remove_bg_base64
    rw [if_pos h2]

/-- C5 witness: the amended theorem applied at concrete oversized requests. -/
theorem c5_oversized_gives_500_witness :
    dispatch_remove_bg rmAlwaysOk oversizedUpload =
      ⟨errorResponse 500 ("Failed to process image: " ++ entity_too_large_text),
        none, 0, 0⟩ ∧
    dispatch_remove_bg_base64 rmAlwaysOk b64decStub b64encStub oversizedJsonRequest =
      ⟨errorResponse 500 ("Failed to process image: " ++ entity_too_large_text),
        none, 0, 0⟩ ∧
    errorResponse 500 ("Failed to process image: " ++ entity_too_large_text) ≠
      too_large :=
  c5_oversized_gives_500 rmAlwaysOk oversizedUpload b64decStub b64encStub
    oversizedJsonRequest (by decide) (by decide)

/-- C6: a request that passes every validation check and whose rembg call
succeeds is answered with HTTP 200, the output image bytes as the body, and
content type `image/png`. -/
theorem c6_success_response (rm : RemoveFn) (req : FormRequest)
    (f : StoredFile) (output : List Nat)
    (hsize : req.contentLength ≤ MAX_CONTENT_LENGTH)
    (hfile : req.getFile "image" = some f)
    (hname : f.filename ≠ "")
    (hext : file_ext f.filename ∈ allowed_extensions)
    (hrm : rm f.content = Except.ok output) :
    (dispatch_remove_bg rm req).response.status = 200 ∧
    (dispatch_remove_bg rm req).response.body = Body.bytes output ∧
    (dispatch_remove_bg rm req).response.contentType = "image/png" := by
  unfold dispatch_remove_bg remove_background
  rw [if_neg (not_lt.mpr hsize), hfile]
  simp [hname, hext, hrm]

/-- C6 witness: the theorem applied at a concrete successful request. -/
theorem c6_success_response_witness :
    (dispatch_remove_bg rmAlwaysOk validUpload).response.status = 200 ∧
    (dispatch_remove_bg rmAlwaysOk validUpload).response.body =
      Body.bytes [137, 10, 20] ∧
    (dispatch_remove_bg rmAlwaysOk validUpload).response.contentType = "image/png" :=
  c6_success_response rmAlwaysOk validUpload
    { filename := "photo.png", content := [10, 20] } [137, 10, 20]
    (by decide) (by decide) (by decide) (by decide) rfl

/-- C7 counterexample: the handler passes the uploaded bytes to inference
exactly as received — no decode/normalize stage sits between reading and
inference — while a genuine dimension-bounding step (the spec's Normalize,
modelled as `normalizeSpec`) is not the identity on an oversized image, so
no such step is applied by the pipeline. -/
theorem c7_refuted :
    (remove_background rmAlwaysOk validUpload).inferenceInput = some [10, 20] ∧
    validUpload.getFile "image" =
      some { filename := "photo.png", content := [10, 20] } ∧
    normalizeSpec 1200 { width := 2400, height := 1000 } ≠
      { width := 2400, height := 1000 } := by
  decide

/-- C7 (amended): the server contains no dimension-bounding normalization
step; for every request that reaches inference, the byte sequence handed to
the rembg capability is exactly the uploaded file content, unmodified. -/
theorem c7_no_normalization (rm : RemoveFn) (req : FormRequest) (f : StoredFile)
    (hfile : req.getFile "image" = some f)
    (hname : f.filename ≠ "")
    (hext : file_ext f.filename ∈ allowed_extensions) :
    (remove_background rm req).inferenceInput = some f.content := by
  unfold remove_background
  rw [hfile]
  cases hrm : rm f.content with
  | ok output => simp [hname, hext, hrm]
  | error e => simp [hname, hext, hrm]

/-- C7 witness: the amended theorem applied at a concrete request. -/
theorem c7_no_normalization_witness :
    (remove_background rmAlwaysOk validUpload).inferenceInput = some [10, 20] :=
  c7_no_normalization rmAlwaysOk validUpload
    { filename := "photo.png", content := [10, 20] }
    (by decide) (by decide) (by decide)

/-- C8 counterexample: the health endpoint's body is not the claimed
fixed shape with the single key `status` — it carries an additional
`message` field. -/
theorem c8_refuted :
    health_check.body ≠ Body.json (Json.obj [("status", Json.str "ok")]) ∧
    health_check.status = 200 := by
  decide

/-- C8 (amended): the health endpoint is a constant — independent of any
request data or model-session state, hence side-effect free — returning
HTTP 200 with the fixed JSON body holding `status: ok` and an additional
`message` field. -/
theorem c8_health_fixed_response :
    health_check =
      { status := 200, contentType := "application/json",
        body := Body.json (Json.obj [("status", Json.str "ok"),
          ("message", Json.str "Background removal service is running")]) } := rfl

/-- C9: for a present image field with a non-empty filename, the handler
answers with the 400 unsupported-type outcome (and never invokes inference)
exactly when `file_ext` of the filename — the empty string when the
filename has no dot, otherwise the lowercased segment after the last dot —
is not in the extension allow-list; the empty string is never in that list,
so any dotless filename is rejected. -/
theorem c9_extension_gate (rm : RemoveFn) (req : FormRequest) (f : StoredFile)
    (hfile : req.getFile "image" = some f)
    (hname : f.filename ≠ "") :
    (remove_background rm req =
        ⟨errorResponse 400 unsupported_message, none, 0, 0⟩
      ↔ file_ext f.filename ∉ allowed_extensions) ∧
    "" ∉ allowed_extensions := by
  refine ⟨?_, by decide⟩
  unfold remove_background
  rw [hfile]
  by_cases hmem : file_ext f.filename ∈ allowed_extensions
  · cases hrm : rm f.content with
    | ok output => simp [hname, hmem, hrm, errorResponse]
    | error e => simp [hname, hmem, hrm, errorResponse]
  · simp [hname, hmem]

/-- C9 witness: the theorem applied at a concrete dotless filename. -/
theorem c9_extension_gate_witness :
    ((remove_background rmAlwaysOk nodotUpload =
        ⟨errorResponse 400 unsupported_message, none, 0, 0⟩
      ↔ file_ext "photopng" ∉ allowed_extensions) ∧
    "" ∉ allowed_extensions) :=
  c9_extension_gate rmAlwaysOk nodotUpload
    { filename := "photopng", content := [1, 2] }
    (by decide) (by decide)

/-- C10 counterexample: a body that is not parseable JSON makes
`request.get_json()` raise inside the view; the generic `except Exception`
block then answers 500, not the claimed 400 (inference is still never
invoked). -/
theorem c10_refuted :
    (remove_background_base64 rmAlwaysOk b64decStub b64encStub
      badJsonRequest).response.status = 500 ∧
    (remove_background_base64 rmAlwaysOk b64decStub b64encStub
      badJsonRequest).response.status ≠ 400 ∧
    (remove_background_base64 rmAlwaysOk b64decStub b64encStub
      badJsonRequest).inferenceInput = none := by
  decide

/-- C10 (amended): on the base64 endpoint, an unparseable body is answered
with HTTP 500 carrying the raised exception's text, while a parsed object
lacking the `image` key is answered 400 `No base64 image data provided` and
a failing base64 decode is answered 400 `Invalid base64 image data`; in all
three cases inference is never invoked. -/
theorem c10_base64_error_paths (rm : RemoveFn)
    (b64dec : String → Except String (List Nat)) (b64enc : List Nat → String)
    (jq1 jq2 jq3 : JsonRequest) (e : String)
    (kvs2 kvs3 : List (String × Json)) (s msg : String)
    (h1 : jq1.body = JsonParse.failed e)
    (h2 : jq2.body = JsonParse.parsed kvs2)
    (h2k : kvs2.find? (fun p => p.1 == "image") = none)
    (h3 : jq3.body = JsonParse.parsed kvs3)
    (h3k : kvs3.find? (fun p => p.1 == "image") = some ("image", Json.str s))
    (h3d : b64dec s = Except.error msg) :
    remove_background_base64 rm b64dec b64enc jq1 =
      ⟨errorResponse 500 ("Failed to process image: " ++ e), none, 0, 0⟩ ∧
    remove_background_base64 rm b64dec b64enc jq2 =
      ⟨errorResponse 400 "No base64 image data provided", none, 0, 0⟩ ∧
    remove_background_base64 rm b64dec b64enc jq3 =
      ⟨errorResponse 400 "Invalid base64 image data", none, 0, 0⟩ := by
  refine ⟨?_, ?_, ?_⟩
  · unfold remove_background_base64
    rw [h1]
  · unfold remove_background_base64
    rw [h2]
    simp [h2k]
  · unfold remove_background_base64
    rw [h3]
    simp [h3k, h3d]

/-- C10 witness: the amended theorem applied at concrete requests for the
three error paths. -/
theorem c10_base64_error_paths_witness :
    remove_background_base64 rmBoom b64decStub b64encStub badJsonRequest =
      ⟨errorResponse 500
        ("Failed to process image: " ++ "400 Bad Request: Failed to decode JSON object"),
        none, 0, 0⟩ ∧
    remove_background_base64 rmBoom b64decStub b64encStub noImageKeyRequest =
      ⟨errorResponse 400 "No base64 image data provided", none, 0, 0⟩ ∧
    remove_background_base64 rmBoom b64decStub b64encStub badB64Request =
      ⟨errorResponse 400 "Invalid base64 image data", none, 0, 0⟩ :=
  c10_base64_error_paths rmBoom b64decStub b64encStub badJsonRequest
    noImageKeyRequest badB64Request
    "400 Bad Request: Failed to decode JSON object"
    [("data", Json.str "xyz")] [("image", Json.str "not-base64")]
    "not-base64" "Invalid base64-encoded string"
    rfl rfl (by decide) rfl (by decide) rfl
